import Mathlib

/-
Verification of the subvertpy Subversion remote-access binding (src/ra.c,
src/util.c, src/util.h) against its natural-language specification.

The C sources are shallowly embedded: each binding function becomes a Lean
function over explicit arguments; Python objects become the PyVal type;
a C function returning a PyObject pointer that may be NULL (the CPython
error indicator) becomes a PyRet; svn_error_t results become Option
SvnError; uninitialized C locals that are read become explicit extra
parameters carrying the indeterminate initial value of the stack slot.
-/

/-- Shallow model of a Python value as marshalled by the binding. -/
inductive PyVal where
  | none
  | pybool (b : Bool)
  | int (n : Int)
  | str (s : String)
  | tuple (elems : List PyVal)
  | dict (entries : List (String × PyVal))
  | exc (code : Int) (msg : Option String)

/-- Result of a C function returning PyObject pointer: a real object, or NULL
(the CPython error indicator, meaning the call failed with an exception). -/
inductive PyRet where
  | obj (v : PyVal)
  | null

/-- Shallow model of svn_error_t: the apr error code and the message. -/
structure SvnError where
  apr_err : Int
  message : Option String

/- ---------------------------------------------------------------------
C1: py_cb_editor_close_file (src/ra.c lines 655-668).

    if (text_checksum != NULL) {
        ret = PyObject_CallMethod(self, "close", NULL);
    } else {
        ret = PyObject_CallMethod(self, "close", "s", text_checksum);
    }

The function returns the argument list passed to the Python close method of
the file handle. When the server supplies a checksum the branch taken calls
close with no arguments; when the checksum is NULL the branch taken passes
the (null) checksum as the single argument (format unit s applied to a null
pointer; modelled as the absent value).
--------------------------------------------------------------------- -/

def py_cb_editor_close_file (text_checksum : Option String) : List PyVal :=
  match text_checksum with
  | some _ => []
  | Option.none => [PyVal.none]

/-- The argument list claimed by the specification for close: the checksum
when present, no argument when absent. Stated for comparison with the code. -/
def spec_close_file_args (text_checksum : Option String) : List PyVal :=
  match text_checksum with
  | some c => [PyVal.str c]
  | Option.none => []

/- ---------------------------------------------------------------------
C5: reporter_link_path (src/ra.c lines 133-149).

    char *path, *url;
    svn_revnum_t revision;
    ...
    if (!PyArg_ParseTuple(args, "sslb|O", &path, &url, &start_empty, &lock_token))
        return NULL;
    ... reporter->reporter->link_path(reporter->report_baton, path, url,
                revision, start_empty, c_lock_token(lock_token), reporter->pool)

The destination slots of the parse are (path, url, start_empty, lock_token):
the local variable revision is not among them and is never assigned, so the
underlying link_path receives the indeterminate initial value of that stack
slot. The indeterminate value is modelled as the explicit parameter
uninit_revision. (The format string also misaligns the remaining slots; only
the claim-relevant revision component is modelled.)
--------------------------------------------------------------------- -/

/-- One entry recorded by the underlying reporter for link_path. -/
structure LinkPathReport where
  path : String
  url : String
  revision : Int
  start_empty : Bool
  lock_token : Option String
deriving DecidableEq

def reporter_link_path (uninit_revision : Int) (path url : String)
    (_caller_revision : Int) (start_empty : Bool)
    (lock_token : Option String) : LinkPathReport :=
  { path := path, url := url, revision := uninit_revision,
    start_empty := start_empty, lock_token := lock_token }

/- ---------------------------------------------------------------------
C6: ra_check_path (src/ra.c lines 1118-1134).

    svn_revnum_t revision;
    ...
    if (!PyArg_ParseTuple(args, "sl", &path, revision))
        return NULL;
    ... svn_ra_check_path(ra->ra, path, revision, &kind, temp_pool)

The parse destination for the l unit is the uninitialized value of revision
rather than its address, so revision is never assigned from the arguments
and svn_ra_check_path receives the indeterminate initial value of the slot.
The external repository query svn_ra_check_path is modelled as a function
from path and revision to node kind.
--------------------------------------------------------------------- -/

inductive NodeKind where
  | nodeNone
  | file
  | dir
deriving DecidableEq

def ra_check_path (repo : String → Int → NodeKind) (uninit_revision : Int)
    (path : String) (_caller_revision : Int) : NodeKind :=
  repo path uninit_revision

/-- A concrete repository content function: trunk exists as a directory only
at revision 7. -/
def demoRepo : String → Int → NodeKind := fun p r =>
  if p = "trunk" ∧ r = 7 then NodeKind.dir else NodeKind.nodeNone

/- ---------------------------------------------------------------------
Theorems for C1, C5, C6.
--------------------------------------------------------------------- -/

/-- Claim C1: the claim states that when the server finishes a file with a
text checksum, close is invoked with that checksum, and with no checksum
argument otherwise. The code (src/ra.c 655-668) inverts the condition:
evaluated at a supplied checksum it calls close with no argument, and at an
absent checksum it passes the (null) checksum as an argument — the opposite
of the claim on both branches. -/
theorem close_file_checksum_inverted :
    py_cb_editor_close_file (some "8d777f385d3dfec8815d20f7496026dc") = [] ∧
    py_cb_editor_close_file Option.none = [PyVal.none] ∧
    py_cb_editor_close_file (some "8d777f385d3dfec8815d20f7496026dc") ≠
      spec_close_file_args (some "8d777f385d3dfec8815d20f7496026dc") := by
  refine ⟨rfl, rfl, ?_⟩
  intro h
  simp [py_cb_editor_close_file, spec_close_file_args] at h

/-- Claim C5: the claim states the revision recorded by link_path equals the
caller-supplied revision. The code (src/ra.c 133-149) never parses the
revision argument, so the recorded revision is the indeterminate initial
value of the local (here 0), not the caller-supplied 42. -/
theorem link_path_revision_unparsed :
    (reporter_link_path 0 "a" "http://example/b" 42 false Option.none).revision
      ≠ 42 := by
  decide

/-- Claim C6: the claim states check_path returns the node kind of the path
at the caller-supplied revision. The code (src/ra.c 1118-1134) passes the
value of the uninitialized revision local (not its address) to the parse, so
the repository is queried at the indeterminate value (here 0) instead of the
caller-supplied 7, yielding a different node kind. -/
theorem check_path_revision_uninitialized :
    ra_check_path demoRepo 0 "trunk" 7 ≠ demoRepo "trunk" 7 := by
  decide

/- ---------------------------------------------------------------------
C8 data model: svn_lock_t and its marshalling (src/util.c 141-146,
src/ra.c 53-56). wrap_lock is

    Py_BuildValue("(zzzbzz)", lock->path, lock->token, lock->owner,
                  lock->comment, lock->is_dav_comment,
                  lock->creation_date, lock->expiration_date);

Inside the parentheses the format has six converter units (z z z b z z) but
seven arguments are supplied; Py_BuildValue pairs units with arguments in
order and never consumes surplus arguments, so expiration_date is dropped
(and the b unit is fed the comment pointer, shifting every later pairing).
pyify_lock ignores its argument and returns the Python None object.
--------------------------------------------------------------------- -/

structure SvnLock where
  path : Option String
  token : Option String
  owner : Option String
  comment : Option String
  is_dav_comment : Bool
  creation_date : Int
  expiration_date : Int
deriving DecidableEq

/-- A C vararg as supplied to Py_BuildValue by wrap_lock. -/
inductive CArg where
  | cstr (s : Option String)
  | cbool (b : Bool)
  | ctime (t : Int)
deriving DecidableEq

/-- The varargs supplied to Py_BuildValue in wrap_lock, in source order. -/
def wrap_lock_args (l : SvnLock) : List CArg :=
  [CArg.cstr l.path, CArg.cstr l.token, CArg.cstr l.owner,
   CArg.cstr l.comment, CArg.cbool l.is_dav_comment,
   CArg.ctime l.creation_date, CArg.ctime l.expiration_date]

/-- The converter units inside the parentheses of the format (zzzbzz). -/
def wrap_lock_fmt : List Char := ['z', 'z', 'z', 'b', 'z', 'z']

/-- Py_BuildValue pairs converter units with the supplied arguments in
order; arguments beyond the number of units are never consumed. The result
models the tuple slots as (unit, consumed argument) pairs. -/
def buildValuePairs (fmt : List Char) (args : List CArg) : List (Char × CArg) :=
  fmt.zip args

def wrap_lock (l : SvnLock) : List (Char × CArg) :=
  buildValuePairs wrap_lock_fmt (wrap_lock_args l)

/-- pyify_lock (src/ra.c 53-56) returns the Python None object for every
lock. -/
def pyify_lock (_l : SvnLock) : PyVal := PyVal.none

/- ---------------------------------------------------------------------
C2: ra_lock (src/ra.c 1180-1216) and py_lock_func (src/ra.c 58-71).

py_lock_func builds the per-path notification delivered to the Python
callback: (path, do_lock, pyify_lock(lock), error-or-None).

The underlying batch driver svn_ra_lock belongs to the external libsvn
library (specified at its interface boundary in the spec): it invokes the
lock callback exactly once per path with the per-path outcome and returns
an overall error only when the batch itself fails. ra_lock then destroys
its pool and, on BOTH the error branch and the success branch, executes
return NULL — the CPython error indicator.
--------------------------------------------------------------------- -/

/-- One invocation of the Python lock callback, as built by py_lock_func. -/
structure LockCbCall where
  path : Option String
  do_lock : Bool
  lock_arg : PyVal
  err_arg : PyVal

def py_lock_func (path : Option String) (do_lock : Bool)
    (lock : Option SvnLock) (ra_err : Option SvnError) : LockCbCall :=
  { path := path, do_lock := do_lock,
    lock_arg := match lock with
      | some l => pyify_lock l
      | Option.none => PyVal.none,
    err_arg := match ra_err with
      | some e => PyVal.exc e.apr_err e.message
      | Option.none => PyVal.none }

/-- The external svn_ra_lock driver, per its interface contract: for each
path it invokes the registered lock callback once with either the acquired
lock or the per-path error. -/
def svn_ra_lock_driver (results : List (String × (SvnLock ⊕ SvnError))) :
    List LockCbCall :=
  results.map (fun pr =>
    match pr.2 with
    | Sum.inl l => py_lock_func (some pr.1) true (some l) Option.none
    | Sum.inr e => py_lock_func (some pr.1) true Option.none (some e))

/-- ra_lock: after driving the batch, the error branch destroys the pool and
returns NULL, and the success branch (src/ra.c 1214-1215) also destroys the
pool and returns NULL. The result is the list of callback invocations made
and the Python-level return. -/
def ra_lock (results : List (String × (SvnLock ⊕ SvnError)))
    (overall : Option SvnError) : List LockCbCall × PyRet :=
  match overall with
  | some _ => (svn_ra_lock_driver results, PyRet.null)
  | Option.none => (svn_ra_lock_driver results, PyRet.null)

/-- A concrete three-path batch: paths a and b lock successfully, path c is
already locked by another owner. -/
def threePathBatch : List (String × (SvnLock ⊕ SvnError)) :=
  [("a", Sum.inl { path := some "a", token := some "opaquelocktoken:1",
                   owner := some "alice", comment := Option.none,
                   is_dav_comment := false, creation_date := 100,
                   expiration_date := 0 }),
   ("b", Sum.inl { path := some "b", token := some "opaquelocktoken:2",
                   owner := some "alice", comment := Option.none,
                   is_dav_comment := false, creation_date := 100,
                   expiration_date := 0 }),
   ("c", Sum.inr { apr_err := 160035, message := some "Path already locked" })]

/- ---------------------------------------------------------------------
C3: ra_get_log (src/ra.c 839-864) and py_svn_log_wrapper
(src/util.c 97-134).

    if (PyArg_ParseTupleAndKeywords(args, kwargs, "OOll|ibbO", ...))
        return NULL;

The parse-result check lacks the negation every other binding function has:
when argument parsing succeeds (valid arguments) the function returns NULL
immediately; only when parsing fails does it proceed to svn_ra_get_log.

py_svn_log_wrapper marshals one log entry (changed paths, revision,
revprops) to the Python callback and then returns no svn error regardless
of the callback outcome (the FIXME at src/util.c 132: the callback result
is never consulted), so callback cancellation can never stop the iteration.
--------------------------------------------------------------------- -/

/-- One changed path record of a log entry (svn_log_changed_path_t). -/
structure ChangedPath where
  action : Char
  copyfrom_path : Option String
  copyfrom_rev : Int

def SVN_PROP_REVISION_LOG : String := "svn:log"
def SVN_PROP_REVISION_AUTHOR : String := "svn:author"
def SVN_PROP_REVISION_DATE : String := "svn:date"

/-- The revprops dict built by py_svn_log_wrapper: message, author and date
entries are present exactly when the corresponding C string is non-null. -/
def log_revprops (author date message : Option String) :
    List (String × PyVal) :=
  (match message with
   | some m => [(SVN_PROP_REVISION_LOG, PyVal.str m)]
   | Option.none => []) ++
  (match author with
   | some a => [(SVN_PROP_REVISION_AUTHOR, PyVal.str a)]
   | Option.none => []) ++
  (match date with
   | some d => [(SVN_PROP_REVISION_DATE, PyVal.str d)]
   | Option.none => [])

/-- The changed-paths argument built by py_svn_log_wrapper: None when the
hash is absent, else a dict of (action, copyfrom path, copyfrom rev). -/
def log_changed_paths (cp : Option (List (String × ChangedPath))) : PyVal :=
  match cp with
  | Option.none => PyVal.none
  | some l => PyVal.dict (l.map (fun kv =>
      (kv.1, PyVal.tuple [PyVal.str (String.singleton kv.2.action),
                          (match kv.2.copyfrom_path with
                           | some p => PyVal.str p
                           | Option.none => PyVal.none),
                          PyVal.int kv.2.copyfrom_rev])))

/-- py_svn_log_wrapper: invokes the Python callback with the marshalled
entry and returns no svn error whatever the callback returned, so a
cancellation signalled by the callback is never propagated to the driver. -/
def py_svn_log_wrapper (cb : List PyVal → PyRet)
    (changed_paths : Option (List (String × ChangedPath)))
    (revision : Int) (author date message : Option String) :
    Option SvnError :=
  let entry := [log_changed_paths changed_paths, PyVal.int revision,
                PyVal.dict (log_revprops author date message)]
  let _ret := cb entry
  Option.none

/-- ra_get_log control flow: parse_ok is the result of argument parsing and
run is the outcome that svn_ra_get_log would produce. With the inverted
check, successful parsing returns NULL at once; the svn call is reached
only on a failed parse (with unparsed locals). -/
def ra_get_log (parse_ok : Bool) (run : Option SvnError) : PyRet :=
  if parse_ok then PyRet.null
  else
    match run with
    | some _ => PyRet.null
    | Option.none => PyRet.obj PyVal.none

/- ---------------------------------------------------------------------
C4: scoped pool discipline. RUN_SVN_WITH_POOL (src/util.h 34-38) destroys
the pool and returns NULL when the wrapped call fails. Each operation below
is modelled as the trace of create/destroy events on its temporary pool,
one trace per exit path of the source.
--------------------------------------------------------------------- -/

inductive PoolEvent where
  | create
  | destroy
deriving DecidableEq

/-- The pool is released exactly once over the trace of its lifetime. -/
def releasedExactlyOnce (t : List PoolEvent) : Bool :=
  t.count PoolEvent.create = 1 ∧ t.count PoolEvent.destroy = 1

/-- ra_get_uuid (src/ra.c 794-805): creates a temp pool; the error branch of
RUN_SVN_WITH_POOL destroys it and returns, the success path destroys it
before returning the string. -/
def ra_get_uuid_trace (svnErr : Bool) : List PoolEvent :=
  [PoolEvent.create] ++
  (if svnErr then [PoolEvent.destroy] else [PoolEvent.destroy])

/-- Exit paths of ra_do_update (src/ra.c 880-909): the svn call may fail,
the PyObject_New allocation of the ReporterObject may fail, or the reporter
is returned with the pool stored in it. -/
inductive UpdateExit where
  | svnError
  | allocFail
  | ok
deriving DecidableEq

/-- ra_do_update pool trace per exit path: on svn error RUN_SVN_WITH_POOL
destroys the pool; on allocation failure the function returns NULL without
destroying the pool (src/ra.c 902-904); on success the pool is handed to
the ReporterObject undestroyed. -/
def ra_do_update_trace : UpdateExit → List PoolEvent
  | UpdateExit.svnError => [PoolEvent.create, PoolEvent.destroy]
  | UpdateExit.allocFail => [PoolEvent.create]
  | UpdateExit.ok => [PoolEvent.create]

/-- reporter_dealloc (src/ra.c 180-185): destroys the pool stored in the
reporter object. -/
def reporter_dealloc_trace : List PoolEvent := [PoolEvent.destroy]

/-- Exit paths of get_commit_editor (src/ra.c 981-1014): svn error,
allocation failure inside new_editor_object, or an editor returned owning
the pool. -/
def get_commit_editor_trace : UpdateExit → List PoolEvent
  | UpdateExit.svnError => [PoolEvent.create, PoolEvent.destroy]
  | UpdateExit.allocFail => [PoolEvent.create]
  | UpdateExit.ok => [PoolEvent.create]

/-- py_editor_dealloc (src/ra.c 469-473): destroys the pool stored in the
editor object. -/
def py_editor_dealloc_trace : List PoolEvent := [PoolEvent.destroy]

/- ---------------------------------------------------------------------
Theorems for C2, C3, C4.
--------------------------------------------------------------------- -/

/-- Claim C2: the claim states the per-path callback receives the resulting
lock or a per-path error and the overall call returns success. Evaluated on
the three-path batch (two acquired locks, one already-locked error) with no
batch-level failure: the callback is invoked once per path, but every lock
argument it receives is the Python None object (pyify_lock discards the
lock), and ra_lock returns NULL — the error indicator — on its success path
(src/ra.c 1214-1215), not success. -/
theorem ra_lock_reports_failure_and_drops_locks :
    (ra_lock threePathBatch Option.none).2 = PyRet.null ∧
    (ra_lock threePathBatch Option.none).1.map (fun c => c.path) =
      [some "a", some "b", some "c"] ∧
    (ra_lock threePathBatch Option.none).1.map (fun c => c.lock_arg) =
      [PyVal.none, PyVal.none, PyVal.none] := by
  refine ⟨rfl, rfl, rfl⟩

/-- Claim C3: the claim states that a get_log call with valid arguments
succeeds and iterates, stopping early on callback cancellation. The code
returns NULL (failure) whenever argument parsing succeeds, because the
parse check at src/ra.c 851 lacks its negation; and py_svn_log_wrapper
never consults the callback result, so no cancellation can be propagated
for any callback, entry or revision. -/
theorem ra_get_log_fails_on_valid_args :
    ra_get_log true Option.none = PyRet.null ∧
    ∀ (cb : List PyVal → PyRet)
      (cp : Option (List (String × ChangedPath)))
      (rev : Int) (author date message : Option String),
      py_svn_log_wrapper cb cp rev author date message = Option.none := by
  exact ⟨rfl, fun _ _ _ _ _ _ => rfl⟩

/-- Claim C4 counterexample: the claim states every operation releases its
arena exactly once on every exit path. On the allocation-failure exit path
of ra_do_update (src/ra.c 902-904) the temporary pool is created and never
destroyed, so it is not released exactly once there. -/
theorem do_update_alloc_fail_leaks_pool :
    releasedExactlyOnce (ra_do_update_trace UpdateExit.allocFail) = false := by
  decide

/-- Claim C4 as amended: every modelled operation releases its arena exactly
once on the success and svn-error exit paths — for do_update and
get_commit_editor the success release happens when the returned reporter or
editor object is destroyed — but not on the path where allocation of that
returned Python object itself fails. -/
theorem pool_scope_amended :
    (∀ e : Bool, releasedExactlyOnce (ra_get_uuid_trace e) = true) ∧
    releasedExactlyOnce (ra_do_update_trace UpdateExit.svnError) = true ∧
    releasedExactlyOnce
      (ra_do_update_trace UpdateExit.ok ++ reporter_dealloc_trace) = true ∧
    releasedExactlyOnce (get_commit_editor_trace UpdateExit.svnError) = true ∧
    releasedExactlyOnce
      (get_commit_editor_trace UpdateExit.ok ++ py_editor_dealloc_trace)
      = true := by
  refine ⟨fun e => ?_, by decide, by decide, by decide, by decide⟩
  cases e <;> decide

/- ---------------------------------------------------------------------
C7: ra_get_dir (src/ra.c 1037-1099). For each dirent the binding builds a
Python dict, setting each field exactly when the corresponding bit of
dirent_fields is set:

    if (dirent_fields & 0x1)  ... "kind" ...
    if (dirent_fields & 0x2)  ... "size" ...
    if (dirent_fields & 0x4)  ... "has_props" ...
    if (dirent_fields & 0x8)  ... "created_rev" ...
    if (dirent_fields & 0x10) ... "time" ...
    if (dirent_fields & 0x20) ... "last_author" ...

The bitmask is modelled as a Nat (the C int is nonnegative here) and the
dict as the list of populated (key, value) pairs in insertion order.
--------------------------------------------------------------------- -/

structure SvnDirent where
  kind : Int
  size : Int
  has_props : Bool
  created_rev : Int
  time : Int
  last_author : String

def pyify_dirent (dirent_fields : Nat) (d : SvnDirent) :
    List (String × PyVal) :=
  (if dirent_fields &&& 0x1 ≠ 0 then [("kind", PyVal.int d.kind)] else []) ++
  (if dirent_fields &&& 0x2 ≠ 0 then [("size", PyVal.int d.size)] else []) ++
  (if dirent_fields &&& 0x4 ≠ 0 then
    [("has_props", PyVal.pybool d.has_props)] else []) ++
  (if dirent_fields &&& 0x8 ≠ 0 then
    [("created_rev", PyVal.int d.created_rev)] else []) ++
  (if dirent_fields &&& 0x10 ≠ 0 then [("time", PyVal.int d.time)] else []) ++
  (if dirent_fields &&& 0x20 ≠ 0 then
    [("last_author", PyVal.str d.last_author)] else [])

/-- The dirents component of the ra_get_dir result: the hash iteration maps
each entry through the per-dirent marshalling above. -/
def ra_get_dir (dirent_fields : Nat) (dirents : List (String × SvnDirent)) :
    List (String × List (String × PyVal)) :=
  dirents.map (fun kv => (kv.1, pyify_dirent dirent_fields kv.2))

/-- Keys populated for one dirent, in insertion order. -/
def direntKeys (dirent_fields : Nat) (d : SvnDirent) : List String :=
  (pyify_dirent dirent_fields d).map Prod.fst

theorem direntKeys_eq (dirent_fields : Nat) (d : SvnDirent) :
    direntKeys dirent_fields d =
      (if dirent_fields &&& 0x1 ≠ 0 then ["kind"] else []) ++
      (if dirent_fields &&& 0x2 ≠ 0 then ["size"] else []) ++
      (if dirent_fields &&& 0x4 ≠ 0 then ["has_props"] else []) ++
      (if dirent_fields &&& 0x8 ≠ 0 then ["created_rev"] else []) ++
      (if dirent_fields &&& 0x10 ≠ 0 then ["time"] else []) ++
      (if dirent_fields &&& 0x20 ≠ 0 then ["last_author"] else []) := by
  unfold direntKeys pyify_dirent
  split_ifs <;> simp

theorem mem_direntKeys (dirent_fields : Nat) (d : SvnDirent) (k : String) :
    k ∈ direntKeys dirent_fields d ↔
      ((k = "kind" ∧ dirent_fields &&& 0x1 ≠ 0) ∨
       (k = "size" ∧ dirent_fields &&& 0x2 ≠ 0) ∨
       (k = "has_props" ∧ dirent_fields &&& 0x4 ≠ 0) ∨
       (k = "created_rev" ∧ dirent_fields &&& 0x8 ≠ 0) ∨
       (k = "time" ∧ dirent_fields &&& 0x10 ≠ 0) ∨
       (k = "last_author" ∧ dirent_fields &&& 0x20 ≠ 0)) := by
  rw [direntKeys_eq]
  split_ifs <;> simp_all

/- ---------------------------------------------------------------------
C9: get_commit_editor (src/ra.c 981-1014). The log message handed to
svn_ra_get_commit_editor2 is

    PyString_AsString(PyDict_GetItemString(revprops, SVN_PROP_REVISION_LOG))

so only the svn:log entry of revprops is forwarded; no other entry of the
mapping is read. lock_tokens and keep_locks pass through unchanged.
--------------------------------------------------------------------- -/

/-- PyDict_GetItemString on a dict modelled as an ordered association
list. -/
def assocLookup (d : List (String × String)) (k : String) : Option String :=
  match d with
  | [] => Option.none
  | kv :: rest => if kv.1 = k then some kv.2 else assocLookup rest k

/-- The parameters of the svn_ra_get_commit_editor2 call issued by the
binding. -/
structure CommitEditorCall where
  log_message : Option String
  lock_tokens : Option (List (String × String))
  keep_locks : Bool
deriving DecidableEq

def get_commit_editor (revprops : List (String × String))
    (lock_tokens : Option (List (String × String)))
    (keep_locks : Bool) : CommitEditorCall :=
  { log_message := assocLookup revprops SVN_PROP_REVISION_LOG,
    lock_tokens := lock_tokens, keep_locks := keep_locks }

/- ---------------------------------------------------------------------
C10: py_progress_func (src/ra.c 73-81).

    if (fn == Py_None) { return; }
    PyObject_CallFunction(fn, "ll", progress, total);
    /* TODO: What to do with exceptions raised here ? */

The baton is the registered progress callback. The C function returns void
and discards the call result, so no callback outcome (value or raised
exception) can reach the enclosing svn operation.
--------------------------------------------------------------------- -/

/-- Outcome of invoking a Python callable: a returned value or a raised
exception. -/
inductive CbResult where
  | ok (v : PyVal)
  | raised (msg : String)

/-- What one progress notification produced: the invocations made of the
Python callback, the outcome of that invocation if any, and the error
handed back to the svn layer (the C function returns void, so none). -/
structure ProgressOutcome where
  calls : List (Int × Int)
  cb_result : Option CbResult
  propagated : Option SvnError

def py_progress_func (fn : Option (Int → Int → CbResult))
    (progress total : Int) : ProgressOutcome :=
  match fn with
  | Option.none =>
      { calls := [], cb_result := Option.none, propagated := Option.none }
  | some f =>
      { calls := [(progress, total)], cb_result := some (f progress total),
        propagated := Option.none }

/-- A network operation that emits progress events through py_progress_func
and then completes with its own result; modelled per the interface contract
of the external transport layer, which consults only the (void) return of
the progress function. -/
def operation_with_progress (fn : Option (Int → Int → CbResult))
    (events : List (Int × Int)) (result : PyRet) :
    List ProgressOutcome × PyRet :=
  (events.map (fun e => py_progress_func fn e.1 e.2), result)

/- ---------------------------------------------------------------------
Theorems for C7, C8, C9, C10.
--------------------------------------------------------------------- -/

/-- Claim C7: for every entry of the ra_get_dir result, each per-entry field
is populated exactly when the corresponding bit of the requested bitmask is
set, and with bitmask 0x1 the only populated field is kind. -/
theorem get_dir_fields_match_bitmask (dirent_fields : Nat)
    (dirents : List (String × SvnDirent)) (name : String)
    (entry : List (String × PyVal))
    (hmem : (name, entry) ∈ ra_get_dir dirent_fields dirents) :
    (("kind" ∈ entry.map Prod.fst) ↔ dirent_fields &&& 0x1 ≠ 0) ∧
    (("size" ∈ entry.map Prod.fst) ↔ dirent_fields &&& 0x2 ≠ 0) ∧
    (("has_props" ∈ entry.map Prod.fst) ↔ dirent_fields &&& 0x4 ≠ 0) ∧
    (("created_rev" ∈ entry.map Prod.fst) ↔ dirent_fields &&& 0x8 ≠ 0) ∧
    (("time" ∈ entry.map Prod.fst) ↔ dirent_fields &&& 0x10 ≠ 0) ∧
    (("last_author" ∈ entry.map Prod.fst) ↔ dirent_fields &&& 0x20 ≠ 0) ∧
    (dirent_fields = 0x1 → entry.map Prod.fst = ["kind"]) := by
  obtain ⟨kv, hkv, heq⟩ := List.mem_map.mp hmem
  have hentry : entry = pyify_dirent dirent_fields kv.2 := by
    have := congrArg Prod.snd heq
    simpa using this.symm
  subst hentry
  have hkeys := fun k => mem_direntKeys dirent_fields kv.2 k
  simp only [direntKeys] at hkeys
  refine ⟨?_, ?_, ?_, ?_, ?_, ?_, ?_⟩
  · rw [hkeys]; simp
  · rw [hkeys]; simp
  · rw [hkeys]; simp
  · rw [hkeys]; simp
  · rw [hkeys]; simp
  · rw [hkeys]; simp
  · intro hf
    subst hf
    have := direntKeys_eq 0x1 kv.2
    simpa [direntKeys] using this

/-- A concrete dirent used to instantiate C7. -/
def demoDirent : SvnDirent :=
  { kind := 2, size := 10, has_props := true, created_rev := 5,
    time := 1000, last_author := "alice" }

/-- Witness for C7 at a concrete directory listing with bitmask 0x1. -/
theorem get_dir_fields_match_bitmask_witness :
    (pyify_dirent 1 demoDirent).map Prod.fst = ["kind"] :=
  (get_dir_fields_match_bitmask 1 [("entryname", demoDirent)] "entryname"
    (pyify_dirent 1 demoDirent) (by simp [ra_get_dir])).2.2.2.2.2.2 rfl

/-- A concrete lock with an expiration timestamp, used against C8. -/
def demoSvnLock : SvnLock :=
  { path := some "/a", token := some "opaquelocktoken:9",
    owner := some "bob", comment := some "busy", is_dav_comment := false,
    creation_date := 100, expiration_date := 99 }

/-- Claim C8: the claim states every lock value produced by get_lock and
every value delivered by get_locks or the lock callback carries all seven
lock attributes. Evaluated at a concrete lock: the wrap_lock tuple (used by
get_lock) has only six slots, is unchanged when the expiration timestamp
changes (the seventh argument is never consumed by the six-unit format),
and its fourth slot pairs the boolean converter with the comment string;
pyify_lock (used by get_locks and the lock callback) yields the Python None
object carrying no attribute at all. -/
theorem lock_marshalling_incomplete :
    (wrap_lock demoSvnLock).length = 6 ∧
    wrap_lock demoSvnLock =
      wrap_lock { demoSvnLock with expiration_date := 0 } ∧
    (wrap_lock demoSvnLock)[3]? = some ('b', CArg.cstr (some "busy")) ∧
    pyify_lock demoSvnLock = PyVal.none := by
  refine ⟨rfl, rfl, rfl, rfl⟩

/-- Claim C9: the log message forwarded by get_commit_editor is exactly the
svn:log entry of the supplied revprops mapping, and any two revprops
mappings agreeing on svn:log produce the same commit-editor call — every
other key is ignored and never transmitted. -/
theorem get_commit_editor_forwards_only_log
    (revprops : List (String × String))
    (lock_tokens : Option (List (String × String))) (keep_locks : Bool) :
    (get_commit_editor revprops lock_tokens keep_locks).log_message =
      assocLookup revprops SVN_PROP_REVISION_LOG ∧
    ∀ revprops2 : List (String × String),
      assocLookup revprops2 SVN_PROP_REVISION_LOG =
        assocLookup revprops SVN_PROP_REVISION_LOG →
      get_commit_editor revprops2 lock_tokens keep_locks =
        get_commit_editor revprops lock_tokens keep_locks := by
  refine ⟨rfl, fun rp2 h => ?_⟩
  simp [get_commit_editor, h]

/-- Witness for C9: a revprops mapping with an extra svn:author entry yields
the same commit-editor call as one holding only svn:log. -/
theorem get_commit_editor_forwards_only_log_witness :
    get_commit_editor [("svn:log", "msg"), ("svn:author", "eve")]
        Option.none false =
      get_commit_editor [("svn:log", "msg")] Option.none false :=
  (get_commit_editor_forwards_only_log [("svn:log", "msg")]
      Option.none false).2
    [("svn:log", "msg"), ("svn:author", "eve")] (by decide)

/-- Claim C10: a None progress callback is never invoked, and a non-None
callback that raises has its exception discarded — py_progress_func hands
no error to the svn layer for any callback outcome, and the enclosing
operation completes with its own result regardless of the callback. -/
theorem progress_callback_exceptions_discarded :
    (∀ p t : Int, (py_progress_func Option.none p t).calls = [] ∧
        (py_progress_func Option.none p t).cb_result = Option.none) ∧
    (∀ (f : Int → Int → CbResult) (p t : Int),
        (py_progress_func (some f) p t).calls = [(p, t)] ∧
        (py_progress_func (some f) p t).propagated = Option.none) ∧
    (∀ (fn : Option (Int → Int → CbResult)) (events : List (Int × Int))
        (result : PyRet),
        (operation_with_progress fn events result).2 = result) := by
  refine ⟨fun p t => ⟨rfl, rfl⟩, fun f p t => ⟨rfl, rfl⟩,
    fun fn events result => rfl⟩
